import Mathlib

/-!
Verification of the NBA points-projection engine (`src/PointsProjection.c`).

The program is a pure function `project : Inputs → Output` built from one
base-blend calculation and eight multiplicative adjustment factors, combined
into a product that is clamped to `[MULT_MIN, MULT_MAX]` and applied to the
base.  The C code computes with `double`; every operation the claims are
about (weighted sums, relative deviations, products, clamping) is algebraic,
so we embed the numbers as exact rationals `ℚ` and keep the control flow of
the C source unchanged.

The two league-baseline constants that the design text treats as
"conceptually configurable" (`LEAGUE_AVG_TEAM_TOTAL`,
`LEAGUE_BASE_PTS_ALLOWED_POS`) are additionally modelled by
baseline-parameterized variants of their multiplier functions whose bodies
are the exact C bodies with the constant abstracted; the concrete functions
are those variants applied to the concrete constants.
-/

namespace PointsProjection

/-! ### Tunable weights, baselines and caps (`src/PointsProjection.c`, lines 27-50) -/

def W_BASE_LINE : ℚ := 0.60
def W_BASE_SEASON_AVG : ℚ := 0.40

def W_HOME_AWAY : ℚ := 0.04
def W_GAME_TOTAL : ℚ := 0.06
def W_TEAM_TOTAL : ℚ := 0.12
def W_DEF_VS_POS : ℚ := 0.14

def W_RECENT_FORM : ℚ := 0.08
def W_MINUTES_TREND : ℚ := 0.10
def W_PACE : ℚ := 0.06
def W_B2B_PENALTY : ℚ := 0.03

def LEAGUE_AVG_GAME_TOTAL : ℚ := 229.0
def LEAGUE_AVG_TEAM_TOTAL : ℚ := 114.5
def LEAGUE_AVG_PACE : ℚ := 99.5
def LEAGUE_BASE_PTS_ALLOWED_POS : ℚ := 23.0

def MULT_MIN : ℚ := 0.70
def MULT_MAX : ℚ := 1.40

/-- The clamp helper (line 53-55): `x < lo ? lo : (x > hi ? hi : x)`. -/
def clamp (x lo hi : ℚ) : ℚ :=
  if x < lo then lo else if x > hi then hi else x

/-! ### Input and output records (lines 59-95).
The C `int` flags are only ever tested for truthiness, so they are `Bool`. -/

structure Inputs where
  player_name : String
  player_line_pts : ℚ
  season_avg_pts : ℚ
  is_home : Bool
  game_total_ou : ℚ
  team_total_ou : ℚ
  opp_pts_allowed_vs_pos : ℚ
  recent_avg_pts : ℚ
  season_avg_minutes : ℚ
  expected_minutes : ℚ
  matchup_pace : ℚ
  is_back_to_back : Bool
  deriving Repr, DecidableEq

structure Output where
  base_points : ℚ
  mult_homeaway : ℚ
  mult_game_total : ℚ
  mult_team_total : ℚ
  mult_def_pos : ℚ
  mult_recent : ℚ
  mult_minutes : ℚ
  mult_pace : ℚ
  mult_b2b : ℚ
  uncapped_multiplier : ℚ
  final_multiplier : ℚ
  projection : ℚ
  deriving Repr, DecidableEq

/-! ### Model functions (lines 99-153) -/

/-- `base_points` (lines 99-102). -/
def base_points (inp : Inputs) : ℚ :=
  W_BASE_LINE * inp.player_line_pts + W_BASE_SEASON_AVG * inp.season_avg_pts

/-- `homeaway_multiplier` (lines 104-108). -/
def homeaway_multiplier (inp : Inputs) : ℚ :=
  let delta := if inp.is_home then W_HOME_AWAY else -W_HOME_AWAY
  1.0 + delta

/-- `game_total_multiplier` (lines 110-114). -/
def game_total_multiplier (inp : Inputs) : ℚ :=
  let rel := (inp.game_total_ou - LEAGUE_AVG_GAME_TOTAL) / LEAGUE_AVG_GAME_TOTAL
  1.0 + rel * W_GAME_TOTAL

/-- `team_total_multiplier` (lines 116-119) with `LEAGUE_AVG_TEAM_TOTAL`
abstracted as a configurable baseline: the body divides by the baseline
unconditionally, exactly as the C body does. -/
def team_total_multiplier_base (baseline : ℚ) (inp : Inputs) : ℚ :=
  let rel := (inp.team_total_ou - baseline) / baseline
  1.0 + rel * W_TEAM_TOTAL

/-- `team_total_multiplier` (lines 116-119). -/
def team_total_multiplier (inp : Inputs) : ℚ :=
  team_total_multiplier_base LEAGUE_AVG_TEAM_TOTAL inp

/-- `defense_vs_pos_multiplier` (lines 121-129) with
`LEAGUE_BASE_PTS_ALLOWED_POS` abstracted as a configurable baseline:
`rel` stays `0.0` unless the baseline is positive. -/
def defense_vs_pos_multiplier_base (baseline : ℚ) (inp : Inputs) : ℚ :=
  let rel : ℚ :=
    if baseline > 0.0 then (inp.opp_pts_allowed_vs_pos - baseline) / baseline
    else 0.0
  1.0 + rel * W_DEF_VS_POS

/-- `defense_vs_pos_multiplier` (lines 121-129). -/
def defense_vs_pos_multiplier (inp : Inputs) : ℚ :=
  defense_vs_pos_multiplier_base LEAGUE_BASE_PTS_ALLOWED_POS inp

/-- `recent_form_multiplier` (lines 131-135). -/
def recent_form_multiplier (inp : Inputs) : ℚ :=
  if W_RECENT_FORM = 0.0 ∨ inp.season_avg_pts ≤ 0.0 then 1.0
  else
    let rel := (inp.recent_avg_pts - inp.season_avg_pts) / inp.season_avg_pts
    1.0 + rel * W_RECENT_FORM

/-- `minutes_trend_multiplier` (lines 137-141). -/
def minutes_trend_multiplier (inp : Inputs) : ℚ :=
  if W_MINUTES_TREND = 0.0 ∨ inp.season_avg_minutes ≤ 0.0 then 1.0
  else
    let rel := (inp.expected_minutes - inp.season_avg_minutes) / inp.season_avg_minutes
    1.0 + rel * W_MINUTES_TREND

/-- `pace_multiplier` (lines 143-147). -/
def pace_multiplier (inp : Inputs) : ℚ :=
  if W_PACE = 0.0 ∨ LEAGUE_AVG_PACE ≤ 0.0 then 1.0
  else
    let rel := (inp.matchup_pace - LEAGUE_AVG_PACE) / LEAGUE_AVG_PACE
    1.0 + rel * W_PACE

/-- `b2b_multiplier` (lines 149-153). -/
def b2b_multiplier (inp : Inputs) : ℚ :=
  if inp.is_back_to_back = false ∨ W_B2B_PENALTY ≤ 0.0 then 1.0
  else 1.0 - W_B2B_PENALTY

/-- `project` (lines 155-181): fills every `Output` field in source order. -/
def project (inp : Inputs) : Output :=
  let bp := base_points inp
  let mha := homeaway_multiplier inp
  let mgt := game_total_multiplier inp
  let mtt := team_total_multiplier inp
  let mdp := defense_vs_pos_multiplier inp
  let mrf := recent_form_multiplier inp
  let mmt := minutes_trend_multiplier inp
  let mp := pace_multiplier inp
  let mb := b2b_multiplier inp
  let unc := mha * mgt * mtt * mdp * mrf * mmt * mp * mb
  let fm := clamp unc MULT_MIN MULT_MAX
  { base_points := bp
    mult_homeaway := mha
    mult_game_total := mgt
    mult_team_total := mtt
    mult_def_pos := mdp
    mult_recent := mrf
    mult_minutes := mmt
    mult_pace := mp
    mult_b2b := mb
    uncapped_multiplier := unc
    final_multiplier := fm
    projection := bp * fm }

/-- The concrete scenario from the design's testable properties: line 25.0,
season average 23.0, home, every contextual input sitting exactly at its
league baseline, back-to-back false. -/
def scenarioInputs : Inputs :=
  { player_name := "Test Player"
    player_line_pts := 25.0
    season_avg_pts := 23.0
    is_home := true
    game_total_ou := 229.0
    team_total_ou := 114.5
    opp_pts_allowed_vs_pos := 23.0
    recent_avg_pts := 23.0
    season_avg_minutes := 34.0
    expected_minutes := 34.0
    matchup_pace := 99.5
    is_back_to_back := false }

/-! ### Shared helper lemmas -/

/-- The clamp helper maps every value into `[lo, hi]` whenever `lo ≤ hi`. -/
lemma clamp_mem_Icc (x lo hi : ℚ) (h : lo ≤ hi) :
    lo ≤ clamp x lo hi ∧ clamp x lo hi ≤ hi := by
  unfold clamp
  split
  next => exact ⟨le_rfl, h⟩
  next h1 =>
    split
    next => exact ⟨h, le_rfl⟩
    next h2 => exact ⟨not_lt.mp h1, not_lt.mp h2⟩

/-! ### Claim theorems -/

/-- C1: for every `Inputs` record, the `projection` field of `project`'s
output equals `base_points` multiplied by `final_multiplier` exactly, and
`final_multiplier` equals `clamp uncapped_multiplier MULT_MIN MULT_MAX`. -/
theorem project_projection_eq_base_mul_final (inp : Inputs) :
    (project inp).final_multiplier
        = clamp (project inp).uncapped_multiplier MULT_MIN MULT_MAX ∧
      (project inp).projection
        = (project inp).base_points * (project inp).final_multiplier :=
  ⟨rfl, rfl⟩

/-- C2: for every `Inputs` record, the `final_multiplier` field of
`project`'s output lies within the closed interval
`[MULT_MIN, MULT_MAX] = [0.70, 1.40]`. -/
theorem project_final_multiplier_mem (inp : Inputs) :
    MULT_MIN = 0.70 ∧ MULT_MAX = 1.40 ∧
      MULT_MIN ≤ (project inp).final_multiplier ∧
      (project inp).final_multiplier ≤ MULT_MAX := by
  refine ⟨rfl, rfl, ?_⟩
  exact clamp_mem_Icc (project inp).uncapped_multiplier MULT_MIN MULT_MAX
    (by norm_num [MULT_MIN, MULT_MAX])

/-- C3 (counterexample): the team-total multiplier does NOT substitute a
neutral 1.0 when its baseline is non-positive — with the baseline
(conceptually configurable) set to `-1 ≤ 0` and the team total at its league
value, the code's body still performs the division and produces a value
different from 1. -/
theorem team_total_guard_counterexample :
    ((-1 : ℚ) ≤ 0) ∧ team_total_multiplier_base (-1) scenarioInputs ≠ 1 := by
  constructor
  · norm_num
  · norm_num [team_total_multiplier_base, scenarioInputs, W_TEAM_TOTAL]

/-- C3 (amended): the team-total multiplier (sub-calculation (4)) contains
no divide-by-non-positive-baseline guard: for a negative baseline the
division is still performed, so the multiplier is 1.0 only in the degenerate
case where the team total equals the baseline itself; the guard sits instead
in the defense-vs-position multiplier (sub-calculation (5)), which does
substitute a neutral 1.0 for a non-positive baseline. -/
theorem team_total_no_guard_defense_guarded (b : ℚ) (inp : Inputs) (hb : b < 0) :
    (team_total_multiplier_base b inp = 1 ↔ inp.team_total_ou = b) ∧
      defense_vs_pos_multiplier_base b inp = 1 := by
  constructor
  · unfold team_total_multiplier_base
    rw [show (1.0 : ℚ) + (inp.team_total_ou - b) / b * W_TEAM_TOTAL = 1 ↔
        (inp.team_total_ou - b) / b * W_TEAM_TOTAL = 0 by
      constructor <;> intro h <;> linarith]
    rw [mul_eq_zero, div_eq_zero_iff]
    norm_num [W_TEAM_TOTAL]
    constructor
    · rintro (h | h)
      · linarith
      · exact absurd h (ne_of_lt hb)
    · intro h; left; linarith
  · unfold defense_vs_pos_multiplier_base
    rw [if_neg (by linarith : ¬ b > 0.0)]
    norm_num

/-- Witness for C3's amended theorem at baseline `-1` and the concrete
scenario inputs. -/
theorem team_total_no_guard_defense_guarded_witness :
    ((-1 : ℚ) < 0) ∧
      ((team_total_multiplier_base (-1) scenarioInputs = 1 ↔
          scenarioInputs.team_total_ou = -1) ∧
        defense_vs_pos_multiplier_base (-1) scenarioInputs = 1) :=
  ⟨by norm_num,
    team_total_no_guard_defense_guarded (-1) scenarioInputs (by norm_num)⟩

/-- C4: for every `Inputs` record, the `uncapped_multiplier` field of
`project`'s output equals the product of the eight multipliers
(home/away, game-total, team-total, defense-vs-position, recent-form,
minutes-trend, pace, back-to-back); `base_points` is not a factor of that
product — changing the sportsbook line (a pure `base_points` driver) leaves
`uncapped_multiplier` unchanged. -/
theorem project_uncapped_eq_product (inp : Inputs) (q : ℚ) :
    (project inp).uncapped_multiplier
        = (project inp).mult_homeaway * (project inp).mult_game_total *
            (project inp).mult_team_total * (project inp).mult_def_pos *
            (project inp).mult_recent * (project inp).mult_minutes *
            (project inp).mult_pace * (project inp).mult_b2b ∧
      (project { inp with player_line_pts := q }).uncapped_multiplier
        = (project inp).uncapped_multiplier :=
  ⟨rfl, rfl⟩

/-- C5: with the defense baseline `LEAGUE_BASE_PTS_ALLOWED_POS` treated as
configurable, a non-positive baseline makes the defense-vs-position
multiplier exactly 1.0: the guard keeps the relative deviation at 0 and the
division branch is never taken. -/
theorem defense_vs_pos_guard (b : ℚ) (inp : Inputs) (hb : b ≤ 0) :
    defense_vs_pos_multiplier_base b inp = 1 := by
  unfold defense_vs_pos_multiplier_base
  rw [if_neg (by linarith : ¬ b > 0.0)]
  norm_num

/-- Witness for C5 at baseline `0` and the concrete scenario inputs. -/
theorem defense_vs_pos_guard_witness :
    ((0 : ℚ) ≤ 0) ∧ defense_vs_pos_multiplier_base 0 scenarioInputs = 1 :=
  ⟨le_rfl, defense_vs_pos_guard 0 scenarioInputs le_rfl⟩

/-- C6: for every `Inputs` record, if `is_back_to_back` is false or
`W_B2B_PENALTY ≤ 0` the back-to-back multiplier is 1.0; otherwise it is
`1 - W_B2B_PENALTY`, a flat reduction independent of any input magnitude. -/
theorem b2b_multiplier_eq (inp : Inputs) :
    (project inp).mult_b2b = b2b_multiplier inp ∧
      b2b_multiplier inp =
        if inp.is_back_to_back = true ∧ 0 < W_B2B_PENALTY
        then 1 - W_B2B_PENALTY else 1 := by
  refine ⟨rfl, ?_⟩
  unfold b2b_multiplier
  cases h : inp.is_back_to_back <;> norm_num [W_B2B_PENALTY]

/-- C7: for every `Inputs` record with a positive season average and the
recent average equal to the season average, the recent-form multiplier is
exactly 1.0. -/
theorem recent_form_neutral (inp : Inputs) (h0 : 0 < inp.season_avg_pts)
    (h : inp.recent_avg_pts = inp.season_avg_pts) :
    (project inp).mult_recent = 1 := by
  show recent_form_multiplier inp = 1
  unfold recent_form_multiplier
  rw [if_neg (by push_neg; constructor <;> [norm_num [W_RECENT_FORM]; linarith])]
  rw [h, sub_self, zero_div]
  norm_num

/-- Witness for C7 on the concrete scenario inputs (season average 23,
recent average 23). -/
theorem recent_form_neutral_witness :
    0 < scenarioInputs.season_avg_pts ∧ (project scenarioInputs).mult_recent = 1 :=
  ⟨by norm_num [scenarioInputs],
    recent_form_neutral scenarioInputs (by norm_num [scenarioInputs]) rfl⟩

/-- C8: the concrete scenario (line 25.0, season average 23.0, home, every
contextual input at its league baseline, no back-to-back) produces
`base_points = 24.2`, every deviation-based multiplier exactly 1.0,
home/away multiplier 1.04, uncapped and final multiplier 1.04, and
projection 25.168. -/
theorem project_scenario_values :
    (project scenarioInputs).base_points = 24.2 ∧
      (project scenarioInputs).mult_homeaway = 1.04 ∧
      (project scenarioInputs).mult_game_total = 1 ∧
      (project scenarioInputs).mult_team_total = 1 ∧
      (project scenarioInputs).mult_def_pos = 1 ∧
      (project scenarioInputs).mult_recent = 1 ∧
      (project scenarioInputs).mult_minutes = 1 ∧
      (project scenarioInputs).mult_pace = 1 ∧
      (project scenarioInputs).mult_b2b = 1 ∧
      (project scenarioInputs).uncapped_multiplier = 1.04 ∧
      (project scenarioInputs).final_multiplier = 1.04 ∧
      (project scenarioInputs).projection = 25.168 := by
  norm_num [project, scenarioInputs, base_points, homeaway_multiplier,
    game_total_multiplier, team_total_multiplier, team_total_multiplier_base,
    defense_vs_pos_multiplier, defense_vs_pos_multiplier_base,
    recent_form_multiplier, minutes_trend_multiplier, pace_multiplier,
    b2b_multiplier, clamp, W_BASE_LINE, W_BASE_SEASON_AVG, W_HOME_AWAY,
    W_GAME_TOTAL, W_TEAM_TOTAL, W_DEF_VS_POS, W_RECENT_FORM, W_MINUTES_TREND,
    W_PACE, W_B2B_PENALTY, LEAGUE_AVG_GAME_TOTAL, LEAGUE_AVG_TEAM_TOTAL,
    LEAGUE_AVG_PACE, LEAGUE_BASE_PTS_ALLOWED_POS, MULT_MIN, MULT_MAX]

/-- C9: `project` is deterministic and independent of `player_name`: any two
`Inputs` records that agree on every numeric and boolean field (names may
differ arbitrarily) produce identical `Output` records. -/
theorem project_independent_of_player_name (a b : Inputs)
    (h1 : a.player_line_pts = b.player_line_pts)
    (h2 : a.season_avg_pts = b.season_avg_pts)
    (h3 : a.is_home = b.is_home)
    (h4 : a.game_total_ou = b.game_total_ou)
    (h5 : a.team_total_ou = b.team_total_ou)
    (h6 : a.opp_pts_allowed_vs_pos = b.opp_pts_allowed_vs_pos)
    (h7 : a.recent_avg_pts = b.recent_avg_pts)
    (h8 : a.season_avg_minutes = b.season_avg_minutes)
    (h9 : a.expected_minutes = b.expected_minutes)
    (h10 : a.matchup_pace = b.matchup_pace)
    (h11 : a.is_back_to_back = b.is_back_to_back) :
    project a = project b := by
  cases a; cases b
  simp_all
  rfl

/-- Witness for C9: renaming the scenario player changes nothing in the
output. -/
theorem project_independent_of_player_name_witness :
    project { scenarioInputs with player_name := "Someone Else" }
      = project scenarioInputs :=
  project_independent_of_player_name
    { scenarioInputs with player_name := "Someone Else" } scenarioInputs
    rfl rfl rfl rfl rfl rfl rfl rfl rfl rfl rfl

/-- C10: for every `Inputs` record with non-negative line and season
average, the projection is non-negative: the base blend of two non-negative
drivers is non-negative and the final multiplier is at least
`MULT_MIN = 0.70 > 0`. -/
theorem project_projection_nonneg (inp : Inputs)
    (hl : 0 ≤ inp.player_line_pts) (hs : 0 ≤ inp.season_avg_pts) :
    0 ≤ (project inp).projection := by
  have hbase : 0 ≤ base_points inp := by
    unfold base_points W_BASE_LINE W_BASE_SEASON_AVG
    positivity
  have hfm : MULT_MIN ≤ (project inp).final_multiplier :=
    (clamp_mem_Icc (project inp).uncapped_multiplier MULT_MIN MULT_MAX
      (by norm_num [MULT_MIN, MULT_MAX])).1
  have hproj : (project inp).projection
      = base_points inp * (project inp).final_multiplier := rfl
  rw [hproj]
  exact mul_nonneg hbase (le_trans (by norm_num [MULT_MIN]) hfm)

/-- Witness for C10 on the concrete scenario inputs. -/
theorem project_projection_nonneg_witness :
    0 ≤ scenarioInputs.player_line_pts ∧ 0 ≤ (project scenarioInputs).projection :=
  ⟨by norm_num [scenarioInputs],
    project_projection_nonneg scenarioInputs
      (by norm_num [scenarioInputs]) (by norm_num [scenarioInputs])⟩

end PointsProjection
